import Mathlib

/-!
Shallow embedding of `src/pages/post/[slug].tsx`: the single blog-post page
of the repository. The page consists of a renderer component (`Post`),
a path enumerator (`getStaticPaths`) and a prop builder (`getStaticProps`).
All definitions below are translated from that source file; the content
service client (Prismic) is kept abstract as a structure of functions,
since its implementation is external to the repository.
-/

set_option autoImplicit false

namespace Ignews

/-! ### Data model (the `Post` interface of the source) -/

/-- A banner image: an object with a `url` field. -/
structure Banner where
  url : String
deriving DecidableEq, Repr

/-- One rich-text body fragment: an object with a `text` field. -/
structure BodyItem where
  text : String
deriving DecidableEq, Repr

/-- One content block: a heading plus an ordered list of body fragments. -/
structure ContentItem where
  heading : String
  body : List BodyItem
deriving DecidableEq, Repr

/-- The `data` payload of the `Post` interface; `subtitle`, `banner`,
`author` and `content` are optional fields of the TypeScript interface. -/
structure PostData where
  title : String
  subtitle : Option String
  banner : Option Banner
  author : Option String
  content : Option (List ContentItem)
deriving DecidableEq, Repr

/-- The `Post` interface: optional publication dates and uid, plus data. -/
structure Post where
  first_publication_date : Option String
  last_publication_date : Option String
  uid : Option String
  data : PostData
deriving DecidableEq, Repr

/-- The `PostProps` interface: the props bundle handed to the component. -/
structure PostProps where
  post : Post
  previousPost : Option Post
  nextPost : Option Post
  preview : Bool
deriving DecidableEq, Repr

/-! ### Word counting (lines 54 to 67 of the source)

JavaScript `s.split(sep)` with a one-character separator cuts the string at
every occurrence of the separator and keeps empty segments, so the result
always has (number of occurrences of the separator) + 1 elements; in
particular the empty string splits into one empty segment. `splitPred`
models this over the character list of the string, generalised over the
predicate that recognises the separator. -/

/-- Model of JavaScript string splitting: cut at every character satisfying
`p`, keeping empty segments. `splitPred p []` is `[[]]`, matching the fact
that splitting the empty string yields one empty segment. -/
def splitPred (p : Char → Bool) : List Char → List (List Char)
  | [] => [[]]
  | c :: cs =>
    if p c then [] :: splitPred p cs
    else
      match splitPred p cs with
      | [] => [[c]]
      | t :: ts => (c :: t) :: ts

/-- Token count of `s.toString().split(' ').length` in the source. -/
def countTokens (s : String) : Nat :=
  (splitPred (fun c => c == ' ') s.data).length

/-- The inner `reduce` over the body fragments of one content block. -/
def bodyWords (body : List BodyItem) : Nat :=
  body.foldl (fun acc2 bodyItem => acc2 + countTokens bodyItem.text) 0

/-- The outer `reduce` over the content blocks. The surrounding
`Math.round` of the source is the identity here because the sum of token
counts is already an integer. -/
def totalWords (content : List ContentItem) : Nat :=
  content.foldl
    (fun acc contentItem =>
      acc + countTokens contentItem.heading + bodyWords contentItem.body)
    0

/-- The fixed reading rate of the source, `wordsPerMinute = 200`. -/
def wordsPerMinute : Nat := 200

/-- The source computes `Math.ceil(totalWords / wordsPerMinute)`; on
natural numbers with a positive divisor this is exact ceiling division,
written here as `(w + 200 - 1) / 200` over `Nat`. -/
def totalMinutes (content : List ContentItem) : Nat :=
  (totalWords content + wordsPerMinute - 1) / wordsPerMinute

/-! ### Helper lemmas about the word-count pipeline -/

/-- Splitting never produces an empty list of segments. -/
theorem one_le_splitPred_length (p : Char → Bool) (cs : List Char) :
    1 ≤ (splitPred p cs).length := by
  induction cs with
  | nil => simp [splitPred]
  | cons c cs ih =>
    simp only [splitPred]
    split
    · simp
    · cases h : splitPred p cs with
      | nil => simp
      | cons t ts => simp

/-- Every string contributes at least one token to the word count. -/
theorem one_le_countTokens (s : String) : 1 ≤ countTokens s :=
  one_le_splitPred_length _ _

/-- The accumulator of the outer word-count fold never decreases. -/
theorem le_totalWords_foldl (cs : List ContentItem) (a : Nat) :
    a ≤ cs.foldl
      (fun acc contentItem =>
        acc + countTokens contentItem.heading + bodyWords contentItem.body)
      a := by
  induction cs generalizing a with
  | nil => exact Nat.le_refl a
  | cons c cs ih =>
    exact Nat.le_trans (by omega) (ih (a + countTokens c.heading + bodyWords c.body))

/-- A non-empty content list has a positive total word count. -/
theorem one_le_totalWords (content : List ContentItem) (h : content ≠ []) :
    1 ≤ totalWords content := by
  cases content with
  | nil => exact absurd rfl h
  | cons c cs =>
    have h1 : 1 ≤ countTokens c.heading := one_le_countTokens c.heading
    have h2 := le_totalWords_foldl cs (0 + countTokens c.heading + bodyWords c.body)
    simp only [totalWords, List.foldl]
    omega

/-- The natural-number expression used by `totalMinutes` agrees with the
mathematical ceiling of `w / 200` over the rationals. -/
theorem ceil_div_two_hundred (w : Nat) :
    ⌈(w : ℚ) / (wordsPerMinute : ℚ)⌉ = ((w + wordsPerMinute - 1) / wordsPerMinute : Nat) := by
  simp only [wordsPerMinute]
  set n : ℕ := (w + 200 - 1) / 200 with hn
  have h200 : (0 : ℚ) < 200 := by norm_num
  have hcast : ((200 : ℕ) : ℚ) = (200 : ℚ) := by norm_num
  have hq1 : (w : ℚ) ≤ 200 * (n : ℚ) := by
    exact_mod_cast (by omega : w ≤ 200 * n)
  have hq2 : 200 * (n : ℚ) < (w : ℚ) + 200 := by
    exact_mod_cast (by omega : 200 * n < w + 200)
  rw [hcast, Int.ceil_eq_iff]
  refine ⟨?_, ?_⟩
  · push_cast
    rw [lt_div_iff₀ h200]
    linarith [hq2]
  · push_cast
    rw [div_le_iff₀ h200]
    linarith [hq1]

/-! ### The reading-time formula in the words of the specification

The specification describes the word count as a whitespace-split token
count. These definitions follow the words of the specification, for
comparison with the source-derived `totalWords`/`totalMinutes` above:
tokens are the maximal non-empty runs of non-whitespace characters. -/

/-- Word count in the words of the specification: split on whitespace and
count the non-empty tokens. -/
def claimWordCount (s : String) : Nat :=
  ((splitPred (fun c => c.isWhitespace) s.data).filter (fun t => !t.isEmpty)).length

/-- Total word count in the words of the specification: sum the
whitespace-split token counts of every heading and body fragment. -/
def claimTotalWords (content : List ContentItem) : Nat :=
  content.foldl
    (fun acc contentItem =>
      acc + claimWordCount contentItem.heading +
        contentItem.body.foldl (fun acc2 bodyItem => acc2 + claimWordCount bodyItem.text) 0)
    0

/-- Reading time in the words of the specification: the total word count,
rounded to nearest integer (the identity on an integer total), divided by
200 and rounded up. -/
def claimReadingMinutes (content : List ContentItem) : ℤ :=
  ⌈(claimTotalWords content : ℚ) / (200 : ℚ)⌉

/-! ### The content-service client (external collaborator)

The client is the value returned by `getPrismicClient()`; its behaviour is
external to the repository, so it is kept abstract as a structure of
functions. `Predicate` models `Prismic.predicates.at(path, value)` and
`QueryOptions` the options object accepted by `query`. -/

/-- A Prismic query predicate; `at_` models `Prismic.predicates.at`. -/
inductive Predicate where
  | at_ (path : String) (value : String)
deriving DecidableEq, Repr

/-- The `data` payload of a content-service document. `extra` stands for
the content-service fields that the page never copies through. -/
structure DocumentData where
  title : String
  subtitle : Option String
  banner : Option Banner
  author : Option String
  content : Option (List ContentItem)
  extra : List (String × String)
deriving DecidableEq, Repr

/-- A content-service document: internal id, uid, publication dates, type,
tags and data. Only some of these fields are copied into props. -/
structure Document where
  id : String
  uid : Option String
  first_publication_date : Option String
  last_publication_date : Option String
  type : String
  tags : List String
  data : DocumentData
deriving DecidableEq, Repr

/-- The options object passed to `query`. Options the source does not pass
are `none` (or `[]` for `fetch`). -/
structure QueryOptions where
  fetch : List String
  pageSize : Nat
  after : Option String
  orderings : Option String
  ref : Option String
deriving DecidableEq, Repr

/-- A paginated query result; the page only ever reads `results`. -/
structure QueryResponse where
  results : List Document
deriving DecidableEq, Repr

/-- One recorded call to `query`: the predicates and options passed. -/
def QueryCall := List Predicate × QueryOptions
deriving instance DecidableEq for QueryCall

/-- The abstract content-service client: `getByUID(type, uid, {ref})`
returning a document or a falsy value, and `query(predicates, options)`
returning a paginated result set. -/
structure PrismicClient where
  getByUID : String → String → Option String → Option Document
  query : List Predicate → QueryOptions → QueryResponse

/-! ### The prop builder (`getStaticProps`, lines 172 to 247) -/

/-- The arguments of `getStaticProps` after destructuring: `String(slug)`,
`preview = false` by default, and `previewData?.ref ?? null`. -/
structure GetStaticPropsArgs where
  slug : String
  preview : Bool
  previewRef : Option String
deriving DecidableEq, Repr

/-- A `getStaticProps` return value: either a redirect object or a props
object with its revalidate interval (in seconds). -/
inductive StaticPropsResult where
  | redirect (destination : String) (permanent : Bool)
  | props (bundle : PostProps) (revalidate : Nat)
deriving DecidableEq, Repr

/-- The outcome of running the prop builder: `result = none` models an
uncaught exception (the unguarded `response.data.banner.url` access), and
`queries` records every `query` call issued, in order. -/
structure PropBuilderOutcome where
  result : Option StaticPropsResult
  queries : List QueryCall

/-- The predicate list passed to every `query` call of the page. -/
def postsPredicate : List Predicate :=
  [Predicate.at_ "document.type" "posts"]

/-- Options of the previous-neighbor query (lines 193 to 202). -/
def prevQueryOpts (id : String) (ref : Option String) : QueryOptions :=
  { fetch := ["posts.title"]
    pageSize := 1
    after := some id
    orderings := some "[document.first_publication_date desc]"
    ref := ref }

/-- Options of the next-neighbor query (lines 204 to 213). -/
def nextQueryOpts (id : String) (ref : Option String) : QueryOptions :=
  { fetch := ["posts.title"]
    pageSize := 1
    after := some id
    orderings := some "[document.first_publication_date]"
    ref := ref }

/-- The reduced neighbor record built from a sole query result:
`{ uid, data: { title } }`, every other field of the `Post` interface
left absent. -/
def neighborOf (r : Document) : Post :=
  { first_publication_date := none
    last_publication_date := none
    uid := r.uid
    data :=
      { title := r.data.title
        subtitle := none
        banner := none
        author := none
        content := none } }

/-- The props object built from the found document, the two neighbor query
responses and the preview flag (lines 215 to 244). The banner is already
unwrapped by the caller, since `response.data.banner.url` is the unguarded
access. -/
def shapeBundle (response : Document) (banner : Banner)
    (previousResponse nextResponse : QueryResponse) (preview : Bool) : PostProps :=
  { post :=
      { uid := response.uid
        first_publication_date := response.first_publication_date
        last_publication_date := response.last_publication_date
        data :=
          { author := response.data.author
            title := response.data.title
            subtitle := response.data.subtitle
            content := response.data.content
            banner := some { url := banner.url } } }
    previousPost :=
      match previousResponse.results with
      | [] => none
      | r :: _ => some (neighborOf r)
    nextPost :=
      match nextResponse.results with
      | [] => none
      | r :: _ => some (neighborOf r)
    preview := preview }

/-- The prop builder. A falsy `getByUID` response short-circuits into a
redirect to the root; otherwise the two neighbor queries run, and the
props object is built, unless the found document has no banner, in which
case the unguarded `response.data.banner.url` access throws (`result =
none`). -/
def getStaticProps (client : PrismicClient) (args : GetStaticPropsArgs) : PropBuilderOutcome :=
  match client.getByUID "posts" args.slug args.previewRef with
  | none => { result := some (StaticPropsResult.redirect "/" false), queries := [] }
  | some response =>
    let previousResponse := client.query postsPredicate (prevQueryOpts response.id args.previewRef)
    let nextResponse := client.query postsPredicate (nextQueryOpts response.id args.previewRef)
    { result :=
        match response.data.banner with
        | none => none
        | some banner =>
          some (StaticPropsResult.props
            (shapeBundle response banner previousResponse nextResponse args.preview)
            (60 * 5))
      queries :=
        [(postsPredicate, prevQueryOpts response.id args.previewRef),
         (postsPredicate, nextQueryOpts response.id args.previewRef)] }

/-! ### The path enumerator (`getStaticPaths`, lines 154 to 170) -/

/-- One static route parameter object, `{ params: { slug: post.uid } }`. -/
structure PathParam where
  slug : Option String
deriving DecidableEq, Repr

/-- The value returned by `getStaticPaths`. -/
structure StaticPathsResult where
  paths : List PathParam
  fallback : Bool
deriving DecidableEq, Repr

/-- The outcome of the path enumerator, with the single query it issues. -/
structure PathEnumeratorOutcome where
  result : StaticPathsResult
  queryCall : QueryCall

/-- Options of the path-enumeration query: page size 100, no fields. -/
def pathsQueryOpts : QueryOptions :=
  { fetch := []
    pageSize := 100
    after := none
    orderings := none
    ref := none }

/-- The path enumerator: queries all posts-type documents and maps each to
a route parameter, with fallback enabled. -/
def getStaticPaths (client : PrismicClient) : PathEnumeratorOutcome :=
  let response := client.query postsPredicate pathsQueryOpts
  { result :=
      { paths := response.results.map (fun post => { slug := post.uid })
        fallback := true }
    queryCall := (postsPredicate, pathsQueryOpts) }

/-- Modelled from the spec: whether a document matches one query
predicate; only the document-type predicate described by the spec is
interpreted, any other path matches vacuously. -/
def matchesPredicate (p : Predicate) (d : Document) : Bool :=
  match p with
  | Predicate.at_ path value => if path == "document.type" then d.type == value else true

/-- Modelled from the spec: a concrete content-service client over a fixed
document list. The repository file `src/services/prismic.ts` (the
`getPrismicClient` factory) and the Prismic service itself are not part of
`src/`; the spec describes `query` as returning a paginated result set of
the documents matching the type predicate, truncated to `pageSize`, and
`getByUID` as returning the single document of the given type and uid or
an absent value. Cursor and ordering options are deliberately left
uninterpreted (the spec calls their interaction an open question). -/
def mkClient (docs : List Document) : PrismicClient :=
  { getByUID := fun type uid _ =>
      docs.find? (fun d => d.type == type && d.uid == some uid)
    query := fun preds opts =>
      { results :=
          (docs.filter (fun d => preds.all (fun p => matchesPredicate p d))).take
            opts.pageSize } }

/-! ### The renderer (`Post` component, lines 44 to 152)

The component is modelled as a pure function from the props (plus the
ambient collaborators it closes over: `date-fns` `format`, `object-hash`,
`new Date().getTime()` and `RichText.asHtml`) to a view. The collaborators
are kept abstract in a `Runtime` structure. -/

/-- The object hashed to build a content-block list key:
`{ ...contentItem, ts: new Date().getTime() }`. -/
structure KeyInput where
  heading : String
  body : List BodyItem
  ts : Nat
deriving DecidableEq, Repr

/-- The ambient collaborators of the component: `fmt date pattern locale`
models `format(new Date(date), pattern, { locale })`, `hashFn` models
`object-hash`, `now` models `new Date().getTime()` and `richTextAsHtml`
models `RichText.asHtml`. -/
structure Runtime where
  fmt : Option String → String → String → String
  hashFn : KeyInput → String
  now : Nat
  richTextAsHtml : List BodyItem → String

/-- The pattern of the main date label, line 86. -/
def dateLabelPattern : String := "dd MMM yyyy"

/-- The pattern of the edited-at line, line 103 of the source; `\x27` is
the quote character that `date-fns` uses to delimit literal text. -/
def editedLabelPattern : String := "\x27* editado em \x27dd MMM yyyy\x27, às \x27HH:mm"

/-- The locale name of the `ptBR` locale object passed to `format`. -/
def ptBRLocale : String := "pt-BR"

/-- JavaScript template-literal interpolation of a possibly-undefined
value, as in the `/post/` hrefs built from an optional uid. -/
def jsString : Option String → String
  | some s => s
  | none => "undefined"

/-- The list key of one content block, line 112:
`hash({ ...contentItem, ts: new Date().getTime() })`. -/
def blockKey (rt : Runtime) (contentItem : ContentItem) : String :=
  rt.hashFn { heading := contentItem.heading, body := contentItem.body, ts := rt.now }

/-- One rendered content block: its list key, heading and body HTML. -/
structure RenderedBlock where
  key : String
  heading : String
  bodyHtml : String
deriving DecidableEq, Repr

/-- One navigation link: href, visible title and caption. -/
structure NavLink where
  href : String
  label : String
  caption : String
deriving DecidableEq, Repr

/-- Everything observable that the component emits on the success path. -/
structure RenderedView where
  headTitle : String
  bannerUrl : String
  dateLabel : String
  author : Option String
  minutesLabel : String
  editedLabel : String
  blocks : List RenderedBlock
  navFlexDirection : String
  previousLink : Option NavLink
  nextLink : Option NavLink
deriving DecidableEq, Repr

/-- A component render result: the fallback loading placeholder
(`Carregando...`) or the full page view. -/
inductive RenderResult where
  | fallbackLoading
  | page (view : RenderedView)
deriving DecidableEq, Repr

/-- The view built from the props once the fallback check has passed and
the optional `content` and `banner` fields have been found present. -/
def mkView (rt : Runtime) (post : Post) (banner : Banner) (content : List ContentItem)
    (previousPost nextPost : Option Post) : RenderedView :=
  { headTitle := post.data.title ++ " | Ignews"
    bannerUrl := banner.url
    dateLabel := rt.fmt post.first_publication_date dateLabelPattern ptBRLocale
    author := post.data.author
    minutesLabel := toString (totalMinutes content) ++ " min"
    editedLabel := rt.fmt post.first_publication_date editedLabelPattern ptBRLocale
    blocks := content.map (fun contentItem =>
      { key := blockKey rt contentItem
        heading := contentItem.heading
        bodyHtml := rt.richTextAsHtml contentItem.body })
    navFlexDirection :=
      match previousPost with
      | some _ => "row"
      | none => "row-reverse"
    previousLink := previousPost.map (fun pp =>
      { href := "/post/" ++ jsString pp.uid
        label := pp.data.title
        caption := "Post anterior" })
    nextLink := nextPost.map (fun np =>
      { href := "/post/" ++ jsString np.uid
        label := np.data.title
        caption := "Próximo post" }) }

/-- The component: in fallback state it renders only the loading
placeholder; otherwise it dereferences `post.data.content` (line 56) and
`post.data.banner.url` (line 77), throwing (`none`) if either optional
field is absent, and emits the full view. -/
def renderPost (rt : Runtime) (isFallback : Bool) (props : PostProps) : Option RenderResult :=
  if isFallback then some RenderResult.fallbackLoading
  else
    match props.post.data.content, props.post.data.banner with
    | some content, some banner =>
      some (RenderResult.page (mkView rt props.post banner content props.previousPost props.nextPost))
    | _, _ => none

/-! ### Concrete inputs used by witnesses and counterexamples -/

/-- A content list totalling exactly 400 single-space-split tokens: one
empty heading (1 token) plus 399 empty body fragments (1 token each). -/
def exContent400 : List ContentItem :=
  [{ heading := "", body := List.replicate 399 { text := "" } }]

/-- A content list totalling exactly 600 single-space-split tokens. -/
def exContent600 : List ContentItem :=
  [{ heading := "", body := List.replicate 599 { text := "" } }]

/-- A heading of 201 words separated by tab characters: its
whitespace-split word count is 201, but it contains no space character,
so the source counts it as a single token. -/
def cxTabChars : List Char := (List.replicate 200 ['a', '\t']).flatten ++ ['a']

/-- Content whose whitespace-split word count (201) and single-space-split
token count (1) fall on different sides of the 200 words/minute boundary. -/
def cxC1Content : List ContentItem :=
  [{ heading := String.mk cxTabChars, body := [] }]

/-- A concrete banner. -/
def exBanner : Banner := { url := "https://images.example/banner.png" }

/-- A concrete post carrying `exContent400`. -/
def exPost400 : Post :=
  { first_publication_date := some "2021-03-15T19:25:28+0000"
    last_publication_date := some "2021-03-16T10:00:00+0000"
    uid := some "my-first-post"
    data :=
      { title := "Criando um app CRA do zero"
        subtitle := some "Tudo sobre como criar a sua primeira aplicacao"
        banner := some exBanner
        author := some "Elisangela"
        content := some exContent400 } }

/-- A runtime whose collaborators are all constant. -/
def trivRt : Runtime :=
  { fmt := fun _ _ _ => ""
    hashFn := fun _ => ""
    now := 0
    richTextAsHtml := fun _ => "" }

/-- A found document with every optional field present. -/
def exDoc : Document :=
  { id := "X1"
    uid := some "my-first-post"
    first_publication_date := some "2021-03-15T19:25:28+0000"
    last_publication_date := some "2021-03-16T10:00:00+0000"
    type := "posts"
    tags := ["tech"]
    data :=
      { title := "Criando um app CRA do zero"
        subtitle := some "Tudo sobre como criar a sua primeira aplicacao"
        banner := some exBanner
        author := some "Elisangela"
        content := some exContent400
        extra := [("href", "https://api.example/doc/X1")] } }

/-- A found document whose optional banner field is absent. -/
def exDocNoBanner : Document :=
  { id := "X2"
    uid := some "post-sem-banner"
    first_publication_date := some "2021-04-01T08:00:00+0000"
    last_publication_date := none
    type := "posts"
    tags := []
    data :=
      { title := "Post sem banner"
        subtitle := none
        banner := none
        author := some "Elisangela"
        content := some [{ heading := "Intro", body := [] }]
        extra := [] } }

/-- A found document with a banner but with subtitle and author absent. -/
def exDocNoOptionals : Document :=
  { id := "X3"
    uid := some "post-sem-opcionais"
    first_publication_date := some "2021-05-01T08:00:00+0000"
    last_publication_date := none
    type := "posts"
    tags := []
    data :=
      { title := "Post sem opcionais"
        subtitle := none
        banner := some exBanner
        author := none
        content := some [{ heading := "Intro", body := [] }]
        extra := [] } }

/-- A neighbor document as returned by a page-size-1 neighbor query. -/
def neighborDoc : Document :=
  { id := "X0"
    uid := some "post-anterior"
    first_publication_date := some "2021-02-01T08:00:00+0000"
    last_publication_date := some "2021-02-02T08:00:00+0000"
    type := "posts"
    tags := ["old"]
    data :=
      { title := "Um post mais antigo"
        subtitle := some "subtitulo antigo"
        banner := none
        author := some "Outra pessoa"
        content := none
        extra := [("lang", "pt-br")] } }

/-- A client that finds no document for any slug. -/
def clientNotFound : PrismicClient :=
  { getByUID := fun _ _ _ => none
    query := fun _ _ => { results := [] } }

/-- A client that always finds `exDoc` and returns empty query results. -/
def clientFound : PrismicClient :=
  { getByUID := fun _ _ _ => some exDoc
    query := fun _ _ => { results := [] } }

/-- A client that always finds the banner-less document. -/
def clientNoBanner : PrismicClient :=
  { getByUID := fun _ _ _ => some exDocNoBanner
    query := fun _ _ => { results := [] } }

/-- A client that always finds the document without subtitle or author. -/
def clientNoOptionals : PrismicClient :=
  { getByUID := fun _ _ _ => some exDocNoOptionals
    query := fun _ _ => { results := [] } }

/-- A client whose descending-ordered query returns one neighbor and whose
ascending-ordered query returns nothing. -/
def clientWithPrev : PrismicClient :=
  { getByUID := fun _ _ _ => some exDoc
    query := fun _ opts =>
      if opts.orderings == some "[document.first_publication_date desc]" then
        { results := [neighborDoc] }
      else
        { results := [] } }

/-- Concrete prop-builder arguments. -/
def exArgs : GetStaticPropsArgs :=
  { slug := "my-first-post", preview := false, previewRef := none }

/-! ### Claim C1 (reading time) -/

set_option maxRecDepth 8000 in
/-- C1, counterexample: the displayed reading time does not equal the
ceiling of the whitespace-split word count divided by 200. For a heading
of 201 tab-separated words the source displays 1 minute (the heading
contains no space character, so `split(' ')` yields a single token), while
the whitespace-split formula of the claim yields 2 minutes. -/
theorem c1_reading_time_counterexample :
    totalMinutes cxC1Content = 1
    ∧ claimReadingMinutes cxC1Content = 2
    ∧ (totalMinutes cxC1Content : ℤ) ≠ claimReadingMinutes cxC1Content := by
  have h1 : totalMinutes cxC1Content = 1 := by decide
  have hw : claimTotalWords cxC1Content = 201 := by decide
  have h2 : claimReadingMinutes cxC1Content = 2 := by
    simp only [claimReadingMinutes, hw]
    rw [Int.ceil_eq_iff]
    norm_num
  exact ⟨h1, h2, by rw [h1, h2]; decide⟩

/-- C1, amended: for every post rendered (not in fallback), the displayed
reading time equals the ceiling of (total word count / 200), where the
total word count sums, over every content block, the token counts of the
heading and of every body-fragment text obtained by splitting on the
single space character with empty tokens kept (a string with n space
characters yields n + 1 tokens); the total is an integer, so rounding it
to nearest is the identity. In particular content totalling exactly 400
such tokens yields 2 minutes and totals of 401 to 600 yield 3 minutes. -/
theorem c1_reading_time_amended (rt : Runtime) (post : Post) (banner : Banner)
    (cs : List ContentItem) (prev next : Option Post) (pv : Bool) :
    (post.data.content = some cs → post.data.banner = some banner →
      renderPost rt false { post := post, previousPost := prev, nextPost := next, preview := pv }
        = some (RenderResult.page (mkView rt post banner cs prev next)))
    ∧ (mkView rt post banner cs prev next).minutesLabel = toString (totalMinutes cs) ++ " min"
    ∧ (totalMinutes cs : ℤ) = ⌈(totalWords cs : ℚ) / (wordsPerMinute : ℚ)⌉
    ∧ (totalWords cs = 400 → totalMinutes cs = 2)
    ∧ (401 ≤ totalWords cs → totalWords cs ≤ 600 → totalMinutes cs = 3) := by
  refine ⟨?_, rfl, ?_, ?_, ?_⟩
  · intro hc hb
    simp [renderPost, hc, hb]
  · rw [ceil_div_two_hundred (totalWords cs)]
    norm_cast
  · intro h
    simp only [totalMinutes, wordsPerMinute, h]
  · intro h1 h2
    simp only [totalMinutes, wordsPerMinute]
    omega

set_option maxRecDepth 8000 in
/-- C1, witness: a post with 400 single-space-split tokens renders to the
full page view and displays 2 minutes; 600 tokens display 3 minutes. -/
theorem c1_reading_time_witness :
    renderPost trivRt false { post := exPost400, previousPost := none, nextPost := none, preview := false }
      = some (RenderResult.page (mkView trivRt exPost400 exBanner exContent400 none none))
    ∧ totalMinutes exContent400 = 2
    ∧ totalMinutes exContent600 = 3 :=
  ⟨(c1_reading_time_amended trivRt exPost400 exBanner exContent400 none none false).1 rfl rfl,
   (c1_reading_time_amended trivRt exPost400 exBanner exContent400 none none false).2.2.2.1 (by decide),
   (c1_reading_time_amended trivRt exPost400 exBanner exContent600 none none false).2.2.2.2
     (by decide) (by decide)⟩

/-! ### Claim C2 (redirect on absent document) -/

/-- C2, counterexample: a document can be found and still no props bundle
is produced, because the unguarded `response.data.banner.url` access
throws when the banner is absent; the prop builder then completes with
neither a redirect nor props. -/
theorem c2_redirect_counterexample :
    clientNoBanner.getByUID "posts" exArgs.slug exArgs.previewRef = some exDocNoBanner
    ∧ (getStaticProps clientNoBanner exArgs).result = none :=
  ⟨rfl, rfl⟩

/-- C2, amended: for every slug, the prop builder returns a temporary
redirect to the root with permanent = false exactly when no document with
that slug is found; otherwise, provided the found document has a banner,
it returns a props bundle (whose post field is always present); when the
found document has no banner, prop building throws and produces neither a
redirect nor props. -/
theorem c2_redirect_amended (client : PrismicClient) (args : GetStaticPropsArgs) :
    ((getStaticProps client args).result = some (StaticPropsResult.redirect "/" false)
      ↔ client.getByUID "posts" args.slug args.previewRef = none)
    ∧ (∀ d banner, client.getByUID "posts" args.slug args.previewRef = some d →
        d.data.banner = some banner →
        (getStaticProps client args).result
          = some (StaticPropsResult.props
              (shapeBundle d banner
                (client.query postsPredicate (prevQueryOpts d.id args.previewRef))
                (client.query postsPredicate (nextQueryOpts d.id args.previewRef))
                args.preview)
              300)) := by
  cases h : client.getByUID "posts" args.slug args.previewRef with
  | none =>
    refine ⟨by simp [getStaticProps, h], ?_⟩
    intro d banner hd
    exact absurd hd (by simp)
  | some d0 =>
    refine ⟨?_, ?_⟩
    · cases hb : d0.data.banner <;> simp [getStaticProps, h, hb]
    · intro d banner hd hb
      injection hd with hdd
      subst hdd
      simp [getStaticProps, h, hb]

/-- C2, witness: the redirect branch at a client that finds nothing, and
the props branch at a client that finds a document with a banner. -/
theorem c2_redirect_witness :
    (getStaticProps clientNotFound exArgs).result
      = some (StaticPropsResult.redirect "/" false)
    ∧ (getStaticProps clientFound exArgs).result
        = some (StaticPropsResult.props
            (shapeBundle exDoc exBanner
              (clientFound.query postsPredicate (prevQueryOpts exDoc.id exArgs.previewRef))
              (clientFound.query postsPredicate (nextQueryOpts exDoc.id exArgs.previewRef))
              exArgs.preview)
            300) :=
  ⟨(c2_redirect_amended clientNotFound exArgs).1.mpr rfl,
   (c2_redirect_amended clientFound exArgs).2 exDoc exBanner rfl rfl⟩

/-! ### Claim C10 (minimum reading time) -/

/-- C10: for every post whose content array is non-empty the computed
reading time is at least 1 minute: splitting any string on a single space,
the empty string included, yields at least one token, so the total word
count is positive and its ceiling after division by 200 is at least 1. -/
theorem c10_min_reading_time (content : List ContentItem) (h : content ≠ []) :
    (∀ s, 1 ≤ countTokens s) ∧ 1 ≤ totalWords content ∧ 1 ≤ totalMinutes content := by
  refine ⟨one_le_countTokens, one_le_totalWords content h, ?_⟩
  have hw := one_le_totalWords content h
  simp only [totalMinutes, wordsPerMinute]
  omega

/-- C10, witness: a single block with an empty heading and no body
fragments already yields a reading time of at least one minute. -/
theorem c10_min_reading_time_witness :
    1 ≤ totalWords [{ heading := "", body := [] }]
    ∧ 1 ≤ totalMinutes [{ heading := "", body := [] }] :=
  ⟨(c10_min_reading_time [{ heading := "", body := [] }] (List.cons_ne_nil _ _)).2.1,
   (c10_min_reading_time [{ heading := "", body := [] }] (List.cons_ne_nil _ _)).2.2⟩

/-! ### Claim C3 (neighbor queries) -/

/-- C3: once the main document is found, the prop builder issues exactly
two queries over posts-type documents, each with page size 1 and cursor
after the found document id, ordered descending respectively ascending by
first publication date; the sole result of the first (when present)
becomes previousPost and of the second becomes nextPost, and an empty
result list yields null. -/
theorem c3_neighbor_queries (client : PrismicClient) (args : GetStaticPropsArgs)
    (d : Document) (h : client.getByUID "posts" args.slug args.previewRef = some d) :
    (getStaticProps client args).queries =
      [([Predicate.at_ "document.type" "posts"],
        { fetch := ["posts.title"], pageSize := 1, after := some d.id,
          orderings := some "[document.first_publication_date desc]", ref := args.previewRef }),
       ([Predicate.at_ "document.type" "posts"],
        { fetch := ["posts.title"], pageSize := 1, after := some d.id,
          orderings := some "[document.first_publication_date]", ref := args.previewRef })]
    ∧ (∀ (pr nr : QueryResponse) (pv : Bool) (banner : Banner),
        (shapeBundle d banner pr nr pv).previousPost = pr.results.head?.map neighborOf
        ∧ (shapeBundle d banner pr nr pv).nextPost = nr.results.head?.map neighborOf) := by
  refine ⟨?_, ?_⟩
  · simp [getStaticProps, h, postsPredicate, prevQueryOpts, nextQueryOpts]
  · intro pr nr pv banner
    refine ⟨?_, ?_⟩
    · cases hr : pr.results <;> simp [shapeBundle, hr]
    · cases hr : nr.results <;> simp [shapeBundle, hr]

/-- C3, witness: at a client whose descending query returns one document
and whose ascending query returns none, the trace names exactly the two
expected calls, the sole descending result becomes previousPost and
nextPost is null. -/
theorem c3_neighbor_queries_witness :
    (getStaticProps clientWithPrev exArgs).queries =
      [([Predicate.at_ "document.type" "posts"],
        { fetch := ["posts.title"], pageSize := 1, after := some exDoc.id,
          orderings := some "[document.first_publication_date desc]", ref := exArgs.previewRef }),
       ([Predicate.at_ "document.type" "posts"],
        { fetch := ["posts.title"], pageSize := 1, after := some exDoc.id,
          orderings := some "[document.first_publication_date]", ref := exArgs.previewRef })]
    ∧ (shapeBundle exDoc exBanner { results := [neighborDoc] } { results := [] } false).previousPost
        = ({ results := [neighborDoc] } : QueryResponse).results.head?.map neighborOf
    ∧ (shapeBundle exDoc exBanner { results := [neighborDoc] } { results := [] } false).nextPost
        = ({ results := [] } : QueryResponse).results.head?.map neighborOf :=
  ⟨(c3_neighbor_queries clientWithPrev exArgs exDoc rfl).1,
   ((c3_neighbor_queries clientWithPrev exArgs exDoc rfl).2
     { results := [neighborDoc] } { results := [] } false exBanner).1,
   ((c3_neighbor_queries clientWithPrev exArgs exDoc rfl).2
     { results := [neighborDoc] } { results := [] } false exBanner).2⟩

/-! ### Claim C4 (unguarded banner access, optional fields passed through) -/

/-- C4: for every found document without a banner, prop building fails
(the `response.data.banner.url` access is unguarded); with a banner
present the build succeeds and the optional subtitle and author fields are
passed through unchanged, absent or not. -/
theorem c4_banner_guard (client : PrismicClient) (args : GetStaticPropsArgs)
    (d : Document) (h : client.getByUID "posts" args.slug args.previewRef = some d) :
    (d.data.banner = none → (getStaticProps client args).result = none)
    ∧ (∀ banner, d.data.banner = some banner →
        (getStaticProps client args).result
          = some (StaticPropsResult.props
              (shapeBundle d banner
                (client.query postsPredicate (prevQueryOpts d.id args.previewRef))
                (client.query postsPredicate (nextQueryOpts d.id args.previewRef))
                args.preview)
              300))
    ∧ (∀ (banner : Banner) (pr nr : QueryResponse) (pv : Bool),
        (shapeBundle d banner pr nr pv).post.data.subtitle = d.data.subtitle
        ∧ (shapeBundle d banner pr nr pv).post.data.author = d.data.author) := by
  refine ⟨?_, ?_, ?_⟩
  · intro hb
    simp [getStaticProps, h, hb]
  · intro banner hb
    simp [getStaticProps, h, hb]
  · intro banner pr nr pv
    exact ⟨rfl, rfl⟩

/-- C4, witness: the banner-less document makes the build fail, and a
document with a banner but no subtitle and no author passes both through
as absent. -/
theorem c4_banner_guard_witness :
    (getStaticProps clientNoBanner exArgs).result = none
    ∧ (shapeBundle exDocNoOptionals exBanner { results := [] } { results := [] } false).post.data.subtitle
        = exDocNoOptionals.data.subtitle
    ∧ (shapeBundle exDocNoOptionals exBanner { results := [] } { results := [] } false).post.data.author
        = exDocNoOptionals.data.author :=
  ⟨(c4_banner_guard clientNoBanner exArgs exDocNoBanner rfl).1 rfl,
   ((c4_banner_guard clientNoOptionals exArgs exDocNoOptionals rfl).2.2
     exBanner { results := [] } { results := [] } false).1,
   ((c4_banner_guard clientNoOptionals exArgs exDocNoOptionals rfl).2.2
     exBanner { results := [] } { results := [] } false).2⟩

/-! ### Claim C5 (both date labels use the first publication date) -/

/-- C5: the main date label and the edited-at line are both computed from
the first publication date with the fixed patterns and the pt-BR locale;
two posts agreeing on the first publication date render identical labels,
whatever their last publication dates are. -/
theorem c5_date_labels (rt : Runtime) (p1 p2 : Post) (banner : Banner)
    (cs : List ContentItem) (prev next : Option Post)
    (h : p1.first_publication_date = p2.first_publication_date) :
    (mkView rt p1 banner cs prev next).dateLabel = (mkView rt p2 banner cs prev next).dateLabel
    ∧ (mkView rt p1 banner cs prev next).editedLabel = (mkView rt p2 banner cs prev next).editedLabel
    ∧ (mkView rt p1 banner cs prev next).dateLabel
        = rt.fmt p1.first_publication_date dateLabelPattern ptBRLocale
    ∧ (mkView rt p1 banner cs prev next).editedLabel
        = rt.fmt p1.first_publication_date editedLabelPattern ptBRLocale := by
  refine ⟨?_, ?_, rfl, rfl⟩ <;> simp [mkView, h]

/-- C5, witness: a post and a copy of it with a different last publication
date render the same date label and the same edited-at line. -/
theorem c5_date_labels_witness :
    (mkView trivRt exPost400 exBanner exContent400 none none).dateLabel
      = (mkView trivRt { exPost400 with last_publication_date := some "2030-01-01T00:00:00+0000" }
          exBanner exContent400 none none).dateLabel
    ∧ (mkView trivRt exPost400 exBanner exContent400 none none).editedLabel
        = (mkView trivRt { exPost400 with last_publication_date := some "2030-01-01T00:00:00+0000" }
            exBanner exContent400 none none).editedLabel :=
  ⟨(c5_date_labels trivRt exPost400
      { exPost400 with last_publication_date := some "2030-01-01T00:00:00+0000" }
      exBanner exContent400 none none rfl).1,
   (c5_date_labels trivRt exPost400
      { exPost400 with last_publication_date := some "2030-01-01T00:00:00+0000" }
      exBanner exContent400 none none rfl).2.1⟩

/-! ### Claim C6 (navigation when there is no previous post) -/

/-- C6: an empty previous-neighbor query result makes previousPost null;
with previousPost null no previous-post link is rendered and the
navigation row direction is row-reverse; with a previous post present the
direction is the normal row. -/
theorem c6_navigation (d : Document) (banner : Banner) (nr : QueryResponse) (pv : Bool)
    (rt : Runtime) (post : Post) (cs : List ContentItem) (next : Option Post) :
    (∀ pr : QueryResponse, pr.results = [] → (shapeBundle d banner pr nr pv).previousPost = none)
    ∧ ((mkView rt post banner cs none next).previousLink = none
        ∧ (mkView rt post banner cs none next).navFlexDirection = "row-reverse")
    ∧ (∀ pp : Post, (mkView rt post banner cs (some pp) next).navFlexDirection = "row") := by
  refine ⟨?_, ⟨rfl, rfl⟩, ?_⟩
  · intro pr hpr
    simp [shapeBundle, hpr]
  · intro pp
    rfl

/-- C6, witness: the three navigation facts evaluated on concrete data. -/
theorem c6_navigation_witness :
    (shapeBundle exDoc exBanner { results := [] } { results := [] } false).previousPost = none
    ∧ (mkView trivRt exPost400 exBanner exContent400 none none).previousLink = none
    ∧ (mkView trivRt exPost400 exBanner exContent400 none none).navFlexDirection = "row-reverse"
    ∧ (mkView trivRt exPost400 exBanner exContent400 (some (neighborOf neighborDoc)) none).navFlexDirection
        = "row" :=
  ⟨(c6_navigation exDoc exBanner { results := [] } false trivRt exPost400 exContent400 none).1
      { results := [] } rfl,
   (c6_navigation exDoc exBanner { results := [] } false trivRt exPost400 exContent400 none).2.1.1,
   (c6_navigation exDoc exBanner { results := [] } false trivRt exPost400 exContent400 none).2.1.2,
   (c6_navigation exDoc exBanner { results := [] } false trivRt exPost400 exContent400 none).2.2
      (neighborOf neighborDoc)⟩

/-! ### Claim C7 (path enumeration) -/

/-- C7: path enumeration queries the content service for all posts-type
documents with page size 100 and no extra fields fetched, and over a
content set of K posts-type documents (K at most 100) returns exactly K
route parameters, one per document identifier, with fallback enabled. -/
theorem c7_static_paths (docs : List Document)
    (htype : ∀ d ∈ docs, d.type = "posts") (hlen : docs.length ≤ 100) :
    (getStaticPaths (mkClient docs)).result.paths
      = docs.map (fun d => { slug := d.uid })
    ∧ (getStaticPaths (mkClient docs)).result.paths.length = docs.length
    ∧ (getStaticPaths (mkClient docs)).result.fallback = true
    ∧ (getStaticPaths (mkClient docs)).queryCall
        = ([Predicate.at_ "document.type" "posts"],
           { fetch := [], pageSize := 100, after := none, orderings := none, ref := none }) := by
  have hfilter :
      docs.filter (fun d => postsPredicate.all (fun p => matchesPredicate p d)) = docs := by
    apply List.filter_eq_self.mpr
    intro d hd
    simp [postsPredicate, matchesPredicate, htype d hd]
  have hpaths : (getStaticPaths (mkClient docs)).result.paths
      = docs.map (fun d => ({ slug := d.uid } : PathParam)) := by
    simp only [getStaticPaths, mkClient, pathsQueryOpts]
    rw [hfilter, List.take_of_length_le hlen]
  exact ⟨hpaths, by rw [hpaths]; exact List.length_map docs _, rfl, rfl⟩

/-- C7, witness: a concrete content set of two posts-type documents yields
exactly the two route parameters, fallback enabled, with the expected
query call. -/
theorem c7_static_paths_witness :
    (getStaticPaths (mkClient [exDoc, exDocNoBanner])).result.paths
      = [exDoc, exDocNoBanner].map (fun d => { slug := d.uid })
    ∧ (getStaticPaths (mkClient [exDoc, exDocNoBanner])).result.paths.length = 2
    ∧ (getStaticPaths (mkClient [exDoc, exDocNoBanner])).result.fallback = true :=
  ⟨(c7_static_paths [exDoc, exDocNoBanner] (by decide) (by decide)).1,
   (c7_static_paths [exDoc, exDocNoBanner] (by decide) (by decide)).2.1,
   (c7_static_paths [exDoc, exDocNoBanner] (by decide) (by decide)).2.2.1⟩

/-! ### Claim C8 (only the listed fields are copied through) -/

/-- C8: the props bundle depends only on the listed fields of the found
document (uid, both publication dates, title, subtitle, author, content,
and the banner url) — two documents agreeing on those produce identical
bundles whatever their id, type, tags or other data fields are — and a
neighbor reference carries only the uid and title, every other field of
the neighbor document being dropped. -/
theorem c8_props_frame (d d2 : Document) (banner : Banner) (pr nr : QueryResponse)
    (pv : Bool) (r r2 : Document)
    (huid : d.uid = d2.uid)
    (hfirst : d.first_publication_date = d2.first_publication_date)
    (hlast : d.last_publication_date = d2.last_publication_date)
    (htitle : d.data.title = d2.data.title)
    (hsub : d.data.subtitle = d2.data.subtitle)
    (hauthor : d.data.author = d2.data.author)
    (hcontent : d.data.content = d2.data.content)
    (hruid : r.uid = r2.uid) (hrtitle : r.data.title = r2.data.title) :
    shapeBundle d banner pr nr pv = shapeBundle d2 banner pr nr pv
    ∧ neighborOf r = neighborOf r2
    ∧ neighborOf r
        = { first_publication_date := none
            last_publication_date := none
            uid := r.uid
            data := { title := r.data.title, subtitle := none, banner := none,
                      author := none, content := none } }
    ∧ (shapeBundle d banner pr nr pv).post
        = { uid := d.uid
            first_publication_date := d.first_publication_date
            last_publication_date := d.last_publication_date
            data := { title := d.data.title, subtitle := d.data.subtitle,
                      banner := some { url := banner.url }, author := d.data.author,
                      content := d.data.content } } := by
  refine ⟨?_, ?_, rfl, rfl⟩
  · simp [shapeBundle, huid, hfirst, hlast, htitle, hsub, hauthor, hcontent]
  · simp [neighborOf, hruid, hrtitle]

/-- A copy of the found document that differs only in dropped fields:
internal id, tags and the extra data fields. -/
def exDocVariant : Document :=
  { exDoc with
    id := "Y9"
    tags := ["outro", "tema"]
    data := { exDoc.data with extra := [("alt", "other")] } }

/-- A copy of the neighbor document that differs in its dropped fields. -/
def neighborDocVariant : Document :=
  { neighborDoc with
    id := "Z1"
    first_publication_date := none
    tags := []
    data := { neighborDoc.data with subtitle := none, author := none, extra := [] } }

/-- C8, witness: the bundle built from the document copy that differs only
in dropped fields is identical, and so is the neighbor reference. -/
theorem c8_props_frame_witness :
    shapeBundle exDoc exBanner { results := [] } { results := [] } false
      = shapeBundle exDocVariant exBanner { results := [] } { results := [] } false
    ∧ neighborOf neighborDoc = neighborOf neighborDocVariant :=
  ⟨(c8_props_frame exDoc exDocVariant exBanner { results := [] } { results := [] } false
      neighborDoc neighborDocVariant rfl rfl rfl rfl rfl rfl rfl rfl rfl).1,
   (c8_props_frame exDoc exDocVariant exBanner { results := [] } { results := [] } false
      neighborDoc neighborDocVariant rfl rfl rfl rfl rfl rfl rfl rfl rfl).2.1⟩

/-! ### Claim C9 (content-block keys are timestamp-dependent) -/

/-- C9: the list key of a content block hashes the block together with the
current timestamp, so the hash input differs across renders at different
times, and for any hash that separates timestamps the keys themselves
differ: block identity is not stable across re-renders. -/
theorem c9_block_key_timestamp (rt1 rt2 : Runtime) (c : ContentItem)
    (hfn : rt2.hashFn = rt1.hashFn)
    (hts : ∀ a b : KeyInput, rt1.hashFn a = rt1.hashFn b → a.ts = b.ts)
    (hnow : rt1.now ≠ rt2.now) :
    ({ heading := c.heading, body := c.body, ts := rt1.now } : KeyInput)
      ≠ { heading := c.heading, body := c.body, ts := rt2.now }
    ∧ blockKey rt1 c ≠ blockKey rt2 c := by
  refine ⟨?_, ?_⟩
  · intro hk
    exact hnow (congrArg KeyInput.ts hk)
  · intro hk
    apply hnow
    simp only [blockKey, hfn] at hk
    exact hts _ _ hk

/-- A concrete content block used by the key-stability witness. -/
def exItem : ContentItem :=
  { heading := "Primeira parte", body := [{ text := "conteudo inicial" }] }

/-- A runtime whose hash encodes the timestamp as a string length, hence
separates timestamps. -/
def injRt (t : Nat) : Runtime :=
  { fmt := fun _ _ _ => ""
    hashFn := fun k => String.mk (List.replicate k.ts 'x')
    now := t
    richTextAsHtml := fun _ => "" }

/-- C9, witness: two renders of the same block at times 0 and 1 hash
different inputs and produce different keys. -/
theorem c9_block_key_timestamp_witness :
    ({ heading := exItem.heading, body := exItem.body, ts := (injRt 0).now } : KeyInput)
      ≠ { heading := exItem.heading, body := exItem.body, ts := (injRt 1).now }
    ∧ blockKey (injRt 0) exItem ≠ blockKey (injRt 1) exItem :=
  c9_block_key_timestamp (injRt 0) (injRt 1) exItem rfl
    (fun a b h => by
      have h2 : (List.replicate a.ts 'x').length = (List.replicate b.ts 'x').length :=
        congrArg (fun s => s.data.length) h
      simpa using h2)
    (by decide)

end Ignews
